import Mathlib

/-!
Verification development for the `nest-notification-svc` repository: a shallow
embedding of the multi-channel notification dispatcher (dispatch pipeline,
template renderer, notification store operations, priority mapping, bulk
ingress guard) together with theorems settling the frozen claims about it.

Conventions of the embedding:
* TypeScript string enums (`NotificationType`, `NotificationChannel`,
  `NotificationPriority`, `NotificationStatus`) are embedded as plain `String`
  values equal to the enum member names: the enum declarations (captured
  alongside `NotificationRepository.ts`) assign each member its own name as
  value (`WELCOME = 'WELCOME'`, …), matching the string literals used
  throughout `notification.service.ts`.
* Timestamps (`Date.now()`, `Date.getTime()`) are epoch milliseconds as `Int`.
* Database tables are lists of rows in table order; `findMany`/`findFirst`
  are `List.filter`/`List.find?` over that order.
* Optional / nullable JavaScript values are `Option`; JavaScript truthiness of
  a string is `some s` with `s` nonempty.
-/

namespace NotificationSvc

/-! ## Template renderer (`services/template.renderer.ts`)

`render` walks `Object.entries(vars)` and for each `(key, value)` applies
a global string replacement of the literal token `{{key}}` by `String(value)`
on the three template fields.  The `new RegExp` over the interpolated key is
taken at its intended meaning: matching the literal token (variable names are
plain identifiers, without regular-expression metacharacters).

A global regex replacement scans left to right, replaces each non-overlapping
occurrence, and does not rescan the inserted text.  The inserted text is the
string replacement value passed through the ECMAScript `GetSubstitution`
step: `$$` inserts a dollar, `$&` the matched text, `$` followed by a
backquote the part of the subject before the match, `$` followed by a quote
the part after it, and — the token regex having no capture groups and no
named groups — every other `$` (a trailing `$`, `$n`, `$<…>`) stands for
itself.  `replaceAllGo` embeds this scan; its `fuel` argument only bounds the
recursion (one unit per scan step, each of which consumes at least one
character), and the `strReplaceAll` wrapper supplies `s.length` fuel, which
is always sufficient. -/

/-- ECMAScript `GetSubstitution` for a string replacement under a literal
pattern with no capture groups.  `matched` is the matched text, `before` the
part of the subject preceding the match, `after` the part following it. -/
def getSubstitution (matched before after : List Char) : List Char → List Char
  | [] => []
  | c :: rest =>
    if c = '$' then
      match rest with
      | [] => [c]
      | d :: rest' =>
        if d = '$' then c :: getSubstitution matched before after rest'
        else if d = '&' then matched ++ getSubstitution matched before after rest'
        else if d = Char.ofNat 96 then before ++ getSubstitution matched before after rest'
        else if d = Char.ofNat 39 then after ++ getSubstitution matched before after rest'
        else c :: getSubstitution matched before after (d :: rest')
    else c :: getSubstitution matched before after rest

/-- One left-to-right global replacement pass of the literal pattern `pat` by
the replacement string `rep`, with `GetSubstitution` applied at each match,
fuelled.  `orig` is the full subject and `pos` the index in `orig` of the
current suffix `s` (the wrapper starts at `pos = 0`, `s = orig`), so a match
at `pos` substitutes with the matched text, the part of `orig` before `pos`,
and the part of the subject after the match. -/
def replaceAllGo (pat rep orig : List Char) : Nat → Nat → List Char → List Char
  | _, _, [] => []
  | 0, _, s => s
  | f + 1, pos, c :: cs =>
    if pat.isPrefixOf (c :: cs) && !pat.isEmpty then
      getSubstitution pat (List.take pos orig) (List.drop pat.length (c :: cs)) rep
        ++ replaceAllGo pat rep orig f (pos + pat.length) (List.drop pat.length (c :: cs))
    else
      c :: replaceAllGo pat rep orig f (pos + 1) cs

/-- `s.replace(new RegExp(pat, 'g'), rep)` on the character-list view. -/
def strReplaceAll (s : String) (pat : List Char) (rep : String) : String :=
  String.mk (replaceAllGo pat rep.data s.data s.data.length 0 s.data)

/-- The literal placeholder token `{{k}}` of `template.renderer.ts`. -/
def tokenOf (k : String) : List Char :=
  '{' :: '{' :: (k.data ++ ['}', '}'])

/-- The three content fields a template carries into rendering
(`title`, `message`, optional `htmlContent`). -/
structure TemplateContent where
  title : String
  message : String
  htmlContent : Option String
deriving DecidableEq, Repr

/-- JavaScript truthiness of the mutable `htmlContent` variable in `render`
(`undefined`/`null` and the empty string are falsy). -/
def jsStrTruthy : Option String → Bool
  | none => false
  | some s => !s.isEmpty

/-- One iteration of the `for (const [key, value] of Object.entries(vars))`
loop in `render`: global replacement of `{{key}}` on `title` and `message`,
and on `htmlContent` only when it is truthy. -/
def renderStep (acc : TemplateContent) (kv : String × String) : TemplateContent :=
  { title := strReplaceAll acc.title (tokenOf kv.1) kv.2
    message := strReplaceAll acc.message (tokenOf kv.1) kv.2
    htmlContent :=
      if jsStrTruthy acc.htmlContent then
        acc.htmlContent.map (fun h => strReplaceAll h (tokenOf kv.1) kv.2)
      else
        acc.htmlContent }

/-- `TemplateRenderer.render` (template.renderer.ts lines 33-53): sequential
per-variable global replacement over the entries of `variables` (embedded as `vars`), in entry
order.  The mapping is a list of `(name, String(value))` pairs in
`Object.entries` order.  The `try/catch` fallback branch is unreachable in the
embedding (the embedded body is total on string-valued fields). -/
def render (template : TemplateContent) (vars : List (String × String)) : TemplateContent :=
  vars.foldl renderStep template

/-- Modelled from the spec (section 4.1 rendering contract): the simultaneous
one-pass substitution the claim describes — scan each field once, left to
right; at each position replace the first mapping entry whose literal token
`{{name}}` starts there by the string form of its value; leave every other
character (in particular unknown tokens) in place.  Fuelled like
`replaceAllGo`; the wrapper supplies sufficient fuel. -/
def substOnePassGo (vars : List (String × String)) : Nat → List Char → List Char
  | _, [] => []
  | 0, s => s
  | f + 1, c :: cs =>
    match vars.find? (fun kv => (tokenOf kv.1).isPrefixOf (c :: cs)) with
    | some kv => kv.2.data ++ substOnePassGo vars f (List.drop (tokenOf kv.1).length (c :: cs))
    | none => c :: substOnePassGo vars f cs

/-- One-pass substitution on a string field. -/
def substOnePassField (vars : List (String × String)) (s : String) : String :=
  String.mk (substOnePassGo vars s.data.length s.data)

/-- Modelled from the spec (section 4.1): the rendering contract read as a
characterisation of the produced fields — every occurrence of a known literal
token replaced simultaneously, unknown tokens left in place. -/
def renderSpec (template : TemplateContent) (vars : List (String × String)) : TemplateContent :=
  { title := substOnePassField vars template.title
    message := substOnePassField vars template.message
    htmlContent := template.htmlContent.map (substOnePassField vars) }

/-- `true` iff the pattern occurs as a contiguous substring. -/
def containsTok (pat : List Char) : List Char → Bool
  | [] => pat.isEmpty
  | c :: cs => pat.isPrefixOf (c :: cs) || containsTok pat cs

/-- A rendered result is free of the token `pat` in all three fields. -/
abbrev tokenFree (pat : List Char) (t : TemplateContent) : Prop :=
  containsTok pat t.title.data = false ∧
  containsTok pat t.message.data = false ∧
  t.htmlContent.all (fun h => !containsTok pat h.data) = true

/-- The token of a variable is never the empty pattern. -/
theorem tokenOf_ne_nil (k : String) : (tokenOf k).isEmpty = false := by
  simp [tokenOf, List.isEmpty]

/-- `GetSubstitution` inserts a replacement verbatim when it contains no
dollar character. -/
theorem getSubstitution_of_no_dollar (matched before after rep : List Char)
    (h : '$' ∉ rep) : getSubstitution matched before after rep = rep := by
  induction rep with
  | nil => rfl
  | cons c rest ih =>
    rw [List.mem_cons, not_or] at h
    unfold getSubstitution
    rw [if_neg (fun hc => h.1 hc.symm)]
    rw [ih h.2]

/-- A global replacement pass is the identity when the pattern does not occur. -/
theorem replaceAllGo_of_not_contains (pat rep orig : List Char)
    (f pos : Nat) (s : List Char) (h : containsTok pat s = false) :
    replaceAllGo pat rep orig f pos s = s := by
  induction f generalizing pos s with
  | zero => cases s <;> rfl
  | succ f ih =>
    cases s with
    | nil => rfl
    | cons c cs =>
      have h' := h
      unfold containsTok at h'
      rw [Bool.or_eq_false_iff] at h'
      unfold replaceAllGo
      rw [h'.1]
      simp [ih (pos + 1) cs h'.2]

/-- A field-level replacement is the identity when the pattern is absent. -/
theorem strReplaceAll_of_not_contains (s : String) (pat : List Char) (rep : String)
    (h : containsTok pat s.data = false) : strReplaceAll s pat rep = s := by
  unfold strReplaceAll
  rw [replaceAllGo_of_not_contains pat rep.data s.data s.data.length 0 s.data h]

/-- For a one-variable mapping whose value contains no dollar character, the
simultaneous one-pass substitution and the sequential global replacement
perform the same scan (the `GetSubstitution` step inserts the value
verbatim). -/
theorem substOnePassGo_singleton (k v : String) (orig : List Char)
    (hv : '$' ∉ v.data) (f pos : Nat) (s : List Char) :
    substOnePassGo [(k, v)] f s = replaceAllGo (tokenOf k) v.data orig f pos s := by
  induction f generalizing pos s with
  | zero => cases s <;> rfl
  | succ f ih =>
    cases s with
    | nil => rfl
    | cons c cs =>
      unfold substOnePassGo replaceAllGo
      cases h : (tokenOf k).isPrefixOf (c :: cs)
      · simp [List.find?, h]
        exact ih (pos + 1) cs
      · simp [List.find?, h, tokenOf_ne_nil, getSubstitution_of_no_dollar _ _ _ _ hv]
        exact ih (pos + (tokenOf k).length) (List.drop (tokenOf k).length (c :: cs))

/-- Field-level form of the dollar-free one-variable coincidence. -/
theorem strReplaceAll_singleton (s k v : String) (hv : '$' ∉ v.data) :
    strReplaceAll s (tokenOf k) v = substOnePassField [(k, v)] s := by
  unfold strReplaceAll substOnePassField
  rw [← substOnePassGo_singleton k v s.data hv s.data.length 0 s.data]

/-- Render with a one-variable dollar-free mapping equals the one-pass
substitution. -/
theorem render_singleton (t : TemplateContent) (k v : String) (hv : '$' ∉ v.data) :
    render t [(k, v)] = renderSpec t [(k, v)] := by
  cases t with
  | mk title message htmlContent =>
    simp only [render, renderSpec, renderStep, List.foldl,
      strReplaceAll_singleton _ _ _ hv]
    cases htmlContent with
    | none => simp [jsStrTruthy]
    | some h =>
      simp only [jsStrTruthy, Option.map_some]
      by_cases hh : h.isEmpty
      · have hempty : h = "" := (String.isEmpty_iff h).mp hh
        subst hempty
        simp [substOnePassField, substOnePassGo]
      · simp [hh, strReplaceAll_singleton _ _ _ hv]

/-- A render step leaves a content record unchanged when its token is absent
from every field. -/
theorem renderStep_of_tokenFree (t : TemplateContent) (kv : String × String)
    (h : tokenFree (tokenOf kv.1) t) : renderStep t kv = t := by
  obtain ⟨h1, h2, h3⟩ := h
  cases t with
  | mk title message htmlContent =>
    simp only at h1 h2 h3
    simp only [renderStep, strReplaceAll_of_not_contains _ _ _ h1,
      strReplaceAll_of_not_contains _ _ _ h2]
    cases htmlContent with
    | none => simp [jsStrTruthy]
    | some html =>
      simp only [Option.all_some, Bool.not_eq_true'] at h3
      by_cases hh : html.isEmpty
      · simp [jsStrTruthy, hh]
      · simp [jsStrTruthy, hh, strReplaceAll_of_not_contains _ _ _ h3]

/-- Render leaves a content record unchanged when no mapped token occurs in it. -/
theorem render_of_tokenFree (t : TemplateContent) (vars : List (String × String))
    (h : ∀ kv ∈ vars, tokenFree (tokenOf kv.1) t) : render t vars = t := by
  induction vars with
  | nil => rfl
  | cons kv rest ih =>
    have hstep : renderStep t kv = t :=
      renderStep_of_tokenFree t kv (h kv (List.mem_cons_self kv rest))
    show List.foldl renderStep (renderStep t kv) rest = t
    rw [hstep]
    exact ih (fun kv' hkv' => h kv' (List.mem_cons_of_mem kv hkv'))

/-- Claim C5, counterexample: with the mapping `{a ↦ "{{b}}", b ↦ "X"}` and
title `"{{a}}"`, the code substitutes sequentially and produces `"X"`, while
the claimed contract (every occurrence of a token in the field replaced by
that variable's value, unknown tokens left in place) produces `"{{b}}"`.
Moreover the replacement value passes through `GetSubstitution`: with the
mapping `{a ↦ "$&"}` the code produces `"{{a}}"` (the matched text itself),
not the value's string form `"$&"` the contract requires. -/
theorem C5_counterexample :
    render ⟨"{{a}}", "m", none⟩ [("a", "{{b}}"), ("b", "X")] ≠
      renderSpec ⟨"{{a}}", "m", none⟩ [("a", "{{b}}"), ("b", "X")] ∧
    (render ⟨"{{a}}", "m", none⟩ [("a", "{{b}}"), ("b", "X")]).title = "X" ∧
    (renderSpec ⟨"{{a}}", "m", none⟩ [("a", "{{b}}"), ("b", "X")]).title = "{{b}}" ∧
    (render ⟨"{{a}}", "m", none⟩ [("a", "$&")]).title = "{{a}}" ∧
    (renderSpec ⟨"{{a}}", "m", none⟩ [("a", "$&")]).title = "$&" := by
  refine ⟨?_, by decide, by decide, ?_, by decide⟩ <;> decide

/-- Claim C5 (amended): `render` substitutes variable-by-variable in mapping
order, each step a JavaScript global string replacement of that variable's
literal token — so a later variable's token occurring in an earlier
substituted value is itself replaced, and the value is inserted through the
ECMAScript `GetSubstitution` step, which interprets `$$`, `$&`, and the
dollar-prefixed before/after escapes rather than copying the value verbatim;
rendering never fails, an empty mapping returns the template fields
unchanged, and for a mapping with at most one variable whose value contains
no dollar character the result coincides exactly with the simultaneous
substitution contract (every occurrence of the token replaced by the value,
unknown tokens left in place). -/
theorem C5_render_contract (t : TemplateContent) (k v : String) (hv : '$' ∉ v.data) :
    render t [(k, v)] = renderSpec t [(k, v)] ∧ render t [] = t :=
  ⟨render_singleton t k v hv, rfl⟩

/-- Claim C5 witness: the dollar-free one-variable coincidence and the
empty-mapping identity at a concrete template, through `C5_render_contract`. -/
theorem C5_render_contract_witness :
    render ⟨"Hello {{name}}", "{{name}}!", some "<b>{{name}}</b>"⟩ [("name", "Ada")] =
      renderSpec ⟨"Hello {{name}}", "{{name}}!", some "<b>{{name}}</b>"⟩ [("name", "Ada")] ∧
    render ⟨"Hello {{name}}", "{{name}}!", some "<b>{{name}}</b>"⟩ [] =
      ⟨"Hello {{name}}", "{{name}}!", some "<b>{{name}}</b>"⟩ :=
  C5_render_contract ⟨"Hello {{name}}", "{{name}}!", some "<b>{{name}}</b>"⟩
    "name" "Ada" (by decide)

/-- Claim C6, counterexample: rendering `"{{{{a}}}}"` with `{a ↦ "a"}` once
yields `"{{a}}"` (the replacement splices a new token out of the surrounding
braces); rendering the result again yields `"a"`, so render is not idempotent. -/
theorem C6_counterexample :
    render (render ⟨"{{{{a}}}}", "m", none⟩ [("a", "a")]) [("a", "a")] ≠
      render ⟨"{{{{a}}}}", "m", none⟩ [("a", "a")] ∧
    (render ⟨"{{{{a}}}}", "m", none⟩ [("a", "a")]).title = "{{a}}" ∧
    (render (render ⟨"{{{{a}}}}", "m", none⟩ [("a", "a")]) [("a", "a")]).title = "a" := by
  refine ⟨?_, by decide, by decide⟩
  decide

/-- Claim C6 (amended): rendering is idempotent whenever the once-rendered
fields contain no remaining occurrence of any mapped variable's token — in
particular whenever substitution eliminates every known token without forming
a new one.  (In general a replacement can splice a new token together, and a
second render can differ.) -/
theorem C6_render_idempotent (t : TemplateContent) (vars : List (String × String))
    (h : ∀ kv ∈ vars, tokenFree (tokenOf kv.1) (render t vars)) :
    render (render t vars) vars = render t vars :=
  render_of_tokenFree (render t vars) vars h

/-- Claim C6 witness: a concrete idempotent instance established through
`C6_render_idempotent`. -/
theorem C6_render_idempotent_witness :
    render (render ⟨"{{a}}", "m", none⟩ [("a", "x")]) [("a", "x")] =
      render ⟨"{{a}}", "m", none⟩ [("a", "x")] :=
  C6_render_idempotent ⟨"{{a}}", "m", none⟩ [("a", "x")] (by decide)

/-! ## Dispatcher (`notification.service.ts`)

`sendNotification` persists a notification row, loads the user's preference
rows, computes the target channels with `determineChannels`, and enqueues one
job per target channel with `getPriority` and the `scheduledAt`-derived delay.
-/

/-- A `user_preferences` row.  The boolean column is `isEnabled`: the Prisma
model declaration itself is outside the captured sources, but every captured
access site uses `isEnabled` — `updateUserPreferences` in `channel.service.ts`
(`update: { isEnabled }`, `create: { isEnabled }`), `UpdatePreferencesDto`,
and the `UserPreferenceRepository` interface — and the spec (section 3) states
the field name.  No row carries a property named `enabled`. -/
structure UserPreference where
  userId : String
  channel : String
  isEnabled : Bool
deriving DecidableEq, Repr

/-- The JavaScript property read `pref.enabled` in `determineChannels`
(notification.service.ts line 235).  The preference rows have no property
named `enabled` (their boolean field is `isEnabled`), so the access evaluates
to `undefined`, which is falsy in the `filter` callback — for every row. -/
def prefEnabledRead (_ : UserPreference) : Bool :=
  false

/-- `SendNotificationData`: the dispatcher's input.  `metadata` is an ordered
string-to-string association (value strings stand for the string forms used in
rendering); `scheduledAt` is an epoch-millisecond instant. -/
structure SendNotificationData where
  userId : String
  type : String
  title : String
  message : String
  channel : Option String
  priority : Option String
  metadata : List (String × String)
  scheduledAt : Option Int
deriving DecidableEq, Repr

/-- The `defaultChannels` record literal of `determineChannels` together with
the `|| [NotificationChannel.EMAIL]` fallback for a key that is absent from
it.  Enum member values are the member names (file header note). -/
def defaultChannelsFor (type : String) : List String :=
  if type = "WELCOME" then ["EMAIL"]
  else if type = "ORDER_CONFIRMATION" then ["EMAIL", "PUSH"]
  else if type = "ORDER_SHIPPED" then ["PUSH", "SMS"]
  else if type = "ORDER_DELIVERED" then ["PUSH"]
  else if type = "PAYMENT_SUCCESS" then ["EMAIL"]
  else if type = "PAYMENT_FAILED" then ["EMAIL", "PUSH"]
  else if type = "PASSWORD_RESET" then ["EMAIL"]
  else if type = "EMAIL_VERIFICATION" then ["EMAIL"]
  else ["EMAIL"]

/-- `determineChannels` (notification.service.ts lines 233-258).  A pinned
channel is modelled as `some c` (the DTO's enum validation excludes the empty
string, so a present channel is truthy). -/
def determineChannels (notificationData : SendNotificationData)
    (userPreferences : List UserPreference) : List String :=
  let enabledChannels := (userPreferences.filter prefEnabledRead).map (·.channel)
  match notificationData.channel with
  | some c => [c]
  | none =>
    (defaultChannelsFor notificationData.type).filter
      (fun channel => enabledChannels.isEmpty || enabledChannels.contains channel)

/-- Modelled from the spec (section 4.6 step 3, claim C1's wording): the
type's default-channel set intersected with the channels whose preference row
has `isEnabled = true`. -/
def specTargetChannels (notificationData : SendNotificationData)
    (userPreferences : List UserPreference) : List String :=
  (defaultChannelsFor notificationData.type).filter
    (fun channel => ((userPreferences.filter (·.isEnabled)).map (·.channel)).contains channel)

/-- `getPriority` (notification.service.ts lines 260-268):
`priorityMap[(priority as NotificationPriority) || NotificationPriority.NORMAL] || 5`.
A missing (or empty, hence falsy) priority defaults to `NORMAL`; a lookup miss
falls back to `5`. -/
def getPriority (priority : Option String) : Nat :=
  let p := match priority with
    | none => "NORMAL"
    | some s => if s.isEmpty then "NORMAL" else s
  if p = "LOW" then 1
  else if p = "NORMAL" then 5
  else if p = "HIGH" then 10
  else if p = "URGENT" then 20
  else 5

/-- The per-job `delay` option (notification.service.ts lines 94-95, 101-102,
108-109): `scheduledAt ? new Date(scheduledAt).getTime() - Date.now() : 0`. -/
def jsDelay (scheduledAt : Option Int) (now : Int) : Int :=
  match scheduledAt with
  | some t => t - now
  | none => 0

/-- The data each queued job carries (notification.service.ts lines 82-88). -/
structure JobData where
  notificationId : String
  userId : String
  title : String
  message : String
  metadata : List (String × String)
deriving DecidableEq, Repr

/-- The `switch (channel)` in the enqueue loop: which Bull queue a channel's
job goes to.  The switch has no default case, so an unrecognised channel value
enqueues nothing. -/
def queueNameFor (channel : String) : Option String :=
  if channel = "EMAIL" then some "email-queue"
  else if channel = "PUSH" then some "push-queue"
  else if channel = "SMS" then some "sms-queue"
  else none

/-- One entry of a channel work queue as enqueued by `sendNotification`. -/
structure QueuedJob where
  queue : String
  data : JobData
  priority : Nat
  delay : Int
deriving DecidableEq, Repr

/-- The jobs `sendNotification` enqueues (notification.service.ts lines
80-113), given the id of the freshly created notification row and the current
instant. -/
def enqueueJobs (notificationId : String) (notificationData : SendNotificationData)
    (userPreferences : List UserPreference) (now : Int) : List QueuedJob :=
  (determineChannels notificationData userPreferences).filterMap fun channel =>
    (queueNameFor channel).map fun q =>
      { queue := q
        data :=
          { notificationId := notificationId
            userId := notificationData.userId
            title := notificationData.title
            message := notificationData.message
            metadata := notificationData.metadata }
        priority := getPriority notificationData.priority
        delay := jsDelay notificationData.scheduledAt now }

/-- The dispatch request of spec scenario 2: user u2, `ORDER_CONFIRMATION`,
no channel pinned. -/
def u2Request : SendNotificationData :=
  { userId := "u2", type := "ORDER_CONFIRMATION", title := "t", message := "m"
    channel := none, priority := none, metadata := [], scheduledAt := none }

/-- User u2's preference rows: EMAIL enabled, PUSH disabled. -/
def u2Prefs : List UserPreference :=
  [⟨"u2", "EMAIL", true⟩, ⟨"u2", "PUSH", false⟩]

/-- Claim C1, failing input evaluated: for user u2 with preference rows
`{(EMAIL, true), (PUSH, false)}` and an unpinned `ORDER_CONFIRMATION`
dispatch, the code targets both `EMAIL` and `PUSH` and enqueues two jobs —
the preference filter reads the nonexistent property `enabled`, so the
enabled set is always empty and the empty-set short-circuit admits every
default channel — whereas the claimed intersection is `{EMAIL}` with exactly
one job, on the email queue. -/
theorem C1_dispatch_ignores_preferences :
    determineChannels u2Request u2Prefs = ["EMAIL", "PUSH"] ∧
    (enqueueJobs "n1" u2Request u2Prefs 0).map (·.queue) = ["email-queue", "push-queue"] ∧
    specTargetChannels u2Request u2Prefs = ["EMAIL"] := by
  refine ⟨by decide, ?_, by decide⟩
  decide

/-- The dispatch request of spec scenario 3: user u3, `PAYMENT_FAILED`,
URGENT, pinned to EMAIL, scheduled 30 s ahead of `now = 0`. -/
def u3Request : SendNotificationData :=
  { userId := "u3", type := "PAYMENT_FAILED", title := "t", message := "m"
    channel := some "EMAIL", priority := some "URGENT", metadata := []
    scheduledAt := some 30000 }

/-- Claim C9: the priority mapping sends LOW to 1, NORMAL to 5, HIGH to 10,
URGENT to 20, and an absent priority defaults to NORMAL's value 5; in
particular an URGENT request is enqueued with priority 20. -/
theorem C9_priority_mapping :
    getPriority (some "LOW") = 1 ∧
    getPriority (some "NORMAL") = 5 ∧
    getPriority (some "HIGH") = 10 ∧
    getPriority (some "URGENT") = 20 ∧
    getPriority none = 5 ∧
    (enqueueJobs "n3" u3Request [] 0).map (·.priority) = [20] := by
  refine ⟨rfl, rfl, rfl, rfl, rfl, ?_⟩
  decide

/-- Claim C4, counterexample: for a `scheduledAt` 1000 ms in the past the
computed enqueue delay is `-1000`, not `0` — the code does not clamp
`scheduledAt - now` at zero. -/
theorem C4_counterexample :
    jsDelay (some 500) 1500 = -1000 ∧ jsDelay (some 500) 1500 < 0 := by
  constructor <;> decide

/-- Claim C4 (amended): the computed enqueue delay is `scheduledAt - now` when
`scheduledAt` is present — negative, not clamped to 0, when `scheduledAt` is
in the past — and `0` when it is absent; the queue treats the job as ready at
`now + delay`, so the effective earliest dequeue instant is
`max(now, scheduledAt)`, and when `scheduledAt` is in the future the delay is
positive and the job is not dequeueable before `scheduledAt`. -/
theorem C4_delay (t now : Int) :
    jsDelay none now = 0 ∧
    jsDelay (some t) now = t - now ∧
    max now (now + jsDelay (some t) now) = max now t ∧
    (now < t → 0 < jsDelay (some t) now ∧ now + jsDelay (some t) now = t) := by
  refine ⟨rfl, rfl, by simp [jsDelay], fun h => ⟨by simp [jsDelay]; omega, by simp [jsDelay]⟩⟩

/-- Claim C4 witness: the amended statement at `scheduledAt = 30000`,
`now = 0`. -/
theorem C4_delay_witness :
    0 < jsDelay (some 30000) 0 ∧ (0 : Int) + jsDelay (some 30000) 0 = 30000 :=
  (C4_delay 30000 0).2.2.2 (by decide)

/-- A `notifications` row. -/
structure StoredNotification where
  id : String
  userId : String
  type : String
  channel : String
  title : String
  message : String
  metadata : List (String × String)
  priority : String
  status : String
  retryCount : Nat
  scheduledAt : Option Int
  sentAt : Option Int
  failedAt : Option Int
  errorMessage : Option String
  createdAt : Int
  updatedAt : Int
deriving DecidableEq, Repr

/-- `updateNotificationStatus` (lines 270-287) applied to the row it targets:
the patch always carries `status` and `updatedAt`; it adds `sentAt` when the
new status is `SENT`, and `failedAt` plus `errorMessage` when it is `FAILED`.
When the optional `errorMessage` argument is omitted the patch property is
`undefined`, which Prisma skips, leaving the stored column unchanged.  The
several `new Date()` calls of one invocation are the single instant `now`. -/
def updateNotificationStatus (n : StoredNotification) (status : String)
    (errorMessage : Option String) (now : Int) : StoredNotification :=
  { n with
    status := status
    updatedAt := now
    sentAt := if status = "SENT" then some now else n.sentAt
    failedAt := if status = "FAILED" then some now else n.failedAt
    errorMessage :=
      if status = "FAILED" then
        match errorMessage with
        | some m => some m
        | none => n.errorMessage
      else n.errorMessage }

/-- Claim C7: `updateStatus` sets `sentAt` exactly on `SENT`, sets `failedAt`
and the provided `errorMessage` exactly on `FAILED`, always refreshes
`updatedAt`, and leaves every other field of the row unchanged. -/
theorem C7_update_status (n : StoredNotification) (status : String)
    (err : Option String) (now : Int) :
    (updateNotificationStatus n status err now).status = status ∧
    (updateNotificationStatus n status err now).updatedAt = now ∧
    (status = "SENT" → (updateNotificationStatus n status err now).sentAt = some now) ∧
    (status ≠ "SENT" → (updateNotificationStatus n status err now).sentAt = n.sentAt) ∧
    (status = "FAILED" → (updateNotificationStatus n status err now).failedAt = some now) ∧
    (∀ m, status = "FAILED" → err = some m →
      (updateNotificationStatus n status err now).errorMessage = some m) ∧
    (status ≠ "FAILED" →
      (updateNotificationStatus n status err now).failedAt = n.failedAt ∧
      (updateNotificationStatus n status err now).errorMessage = n.errorMessage) ∧
    (updateNotificationStatus n status err now).id = n.id ∧
    (updateNotificationStatus n status err now).userId = n.userId ∧
    (updateNotificationStatus n status err now).type = n.type ∧
    (updateNotificationStatus n status err now).channel = n.channel ∧
    (updateNotificationStatus n status err now).title = n.title ∧
    (updateNotificationStatus n status err now).message = n.message ∧
    (updateNotificationStatus n status err now).metadata = n.metadata ∧
    (updateNotificationStatus n status err now).priority = n.priority ∧
    (updateNotificationStatus n status err now).retryCount = n.retryCount ∧
    (updateNotificationStatus n status err now).scheduledAt = n.scheduledAt ∧
    (updateNotificationStatus n status err now).createdAt = n.createdAt := by
  refine ⟨rfl, rfl, ?_, ?_, ?_, ?_, ?_, rfl, rfl, rfl, rfl, rfl, rfl, rfl, rfl, rfl, rfl, rfl⟩
  · intro h; simp [updateNotificationStatus, h]
  · intro h; simp [updateNotificationStatus, h]
  · intro h; simp [updateNotificationStatus, h]
  · intro m h hm; simp [updateNotificationStatus, h, hm]
  · intro h; simp [updateNotificationStatus, h]

/-- Claim C7 witness: a `SENT` transition and a `FAILED` transition at a
concrete row, through `C7_update_status`. -/
theorem C7_update_status_witness :
    (updateNotificationStatus
      { id := "n1", userId := "u1", type := "WELCOME", channel := "EMAIL"
        title := "t", message := "m", metadata := [], priority := "NORMAL"
        status := "PROCESSING", retryCount := 0, scheduledAt := none
        sentAt := none, failedAt := none, errorMessage := none
        createdAt := 1, updatedAt := 1 } "SENT" none 7).sentAt = some 7 :=
  (C7_update_status _ "SENT" none 7).2.2.1 rfl

/-- The Prisma `where` filter of `retryFailedNotifications` (lines 290-296):
`status = 'FAILED'` and `retryCount < 3`. -/
def failedRetryPred (n : StoredNotification) : Bool :=
  n.status == "FAILED" && n.retryCount < 3

/-- The `findMany({ where: …, take: 100 })` of `retryFailedNotifications`:
the first 100 matching rows in table order — the query has no `orderBy`
clause. -/
def findFailedForRetry (table : List StoredNotification) : List StoredNotification :=
  (table.filter failedRetryPred).take 100

/-- The dispatch request `retryFailedNotifications` re-enters with (lines
299-307): the row's attributes, with the stored channel and priority pinned
and no `scheduledAt` forwarded. -/
def retryRequestOf (n : StoredNotification) : SendNotificationData :=
  { userId := n.userId, type := n.type, title := n.title, message := n.message
    channel := some n.channel, priority := some n.priority
    metadata := n.metadata, scheduledAt := none }

/-- One loop iteration's `update({ where: { id }, data: { retryCount: … } })`
(lines 309-312) as it acts on an arbitrary row: the matching row receives the
selected row's snapshot `retryCount + 1`. -/
def bumpRow (n m : StoredNotification) : StoredNotification :=
  if m.id = n.id then { m with retryCount := n.retryCount + 1 } else m

/-- `retryFailedNotifications` (lines 289-314): the list of re-entered
dispatch requests, and the table after the per-row `retryCount` writes.  (The
rows that the re-entered `sendNotification` calls freshly insert are modelled
by the dispatcher embedding above and never modify existing rows.) -/
def retryFailedNotifications (table : List StoredNotification) :
    List SendNotificationData × List StoredNotification :=
  let selected := findFailedForRetry table
  (selected.map retryRequestOf,
   selected.foldl (fun acc n => acc.map (bumpRow n)) table)

/-- Resolved form of the write-back: a row matched by some selected row's id
gets that row's snapshot `retryCount + 1`; every other row is untouched. -/
def bumpIfSelected (selected : List StoredNotification) (m : StoredNotification) :
    StoredNotification :=
  match selected.find? (fun n => n.id == m.id) with
  | some n => { m with retryCount := n.retryCount + 1 }
  | none => m

/-- `bumpRow` never changes the row id. -/
theorem bumpRow_id (n m : StoredNotification) : (bumpRow n m).id = m.id := by
  unfold bumpRow
  split <;> rfl

/-- Folding the per-iteration table writes commutes with mapping over rows. -/
theorem foldl_bump_eq_map (sel table : List StoredNotification) :
    sel.foldl (fun acc n => acc.map (bumpRow n)) table =
      table.map (fun m => sel.foldl (fun x n => bumpRow n x) m) := by
  induction sel generalizing table with
  | nil => simp
  | cons n rest ih =>
    show rest.foldl _ (table.map (bumpRow n)) = _
    rw [ih (table.map (bumpRow n)), List.map_map]
    rfl

/-- A row whose id no selected row carries is untouched by the writes. -/
theorem foldl_bump_of_not_mem (sel : List StoredNotification)
    (m : StoredNotification) (h : m.id ∉ sel.map (·.id)) :
    sel.foldl (fun x n => bumpRow n x) m = m := by
  induction sel with
  | nil => rfl
  | cons n rest ih =>
    simp only [List.map_cons, List.mem_cons, not_or] at h
    show rest.foldl _ (bumpRow n m) = m
    rw [bumpRow, if_neg h.1]
    exact ih h.2

/-- With pairwise-distinct selected ids, the accumulated per-row writes
resolve to `bumpIfSelected`. -/
theorem foldl_bump_eq_bumpIfSelected (sel : List StoredNotification)
    (hnd : (sel.map (·.id)).Nodup) (m : StoredNotification) :
    sel.foldl (fun x n => bumpRow n x) m = bumpIfSelected sel m := by
  induction sel with
  | nil => rfl
  | cons n rest ih =>
    rw [List.map_cons, List.nodup_cons] at hnd
    show rest.foldl _ (bumpRow n m) = _
    by_cases h : m.id = n.id
    · rw [bumpRow, if_pos h]
      have hid : ({ m with retryCount := n.retryCount + 1 } : StoredNotification).id = m.id := rfl
      rw [foldl_bump_of_not_mem rest _ (by rw [hid, h]; exact hnd.1)]
      rw [bumpIfSelected]
      have : (n.id == m.id) = true := by simp [h.symm]
      simp [List.find?, this]
    · rw [bumpRow, if_neg h]
      rw [ih hnd.2]
      rw [bumpIfSelected, bumpIfSelected]
      have : (n.id == m.id) = false := by
        simp only [beq_eq_false_iff_ne, ne_eq]
        intro hh
        exact h hh.symm
      simp [List.find?, this]

/-- The selected rows form a sublist of the table. -/
theorem findFailedForRetry_sublist (table : List StoredNotification) :
    List.Sublist (findFailedForRetry table) table :=
  (List.take_sublist _ _).trans (List.filter_sublist table)

/-- On a selected row itself, the resolved write is exactly a `retryCount`
increment by one (given distinct ids). -/
theorem bumpIfSelected_self (sel : List StoredNotification)
    (hnd : (sel.map (·.id)).Nodup) (n : StoredNotification) (hmem : n ∈ sel) :
    bumpIfSelected sel n = { n with retryCount := n.retryCount + 1 } := by
  induction sel with
  | nil => cases hmem
  | cons x rest ih =>
    rw [List.map_cons, List.nodup_cons] at hnd
    rcases List.mem_cons.mp hmem with heq | hrest
    · subst heq
      rw [bumpIfSelected]
      simp [List.find?]
    · have hne : (x.id == n.id) = false := by
        have : n.id ∈ rest.map (·.id) := List.mem_map_of_mem (·.id) hrest
        simp only [beq_eq_false_iff_ne, ne_eq]
        intro hx
        exact hnd.1 (hx ▸ this)
      rw [bumpIfSelected]
      simp only [List.find?, hne]
      exact ih hnd.2 hrest

/-- Claim C3, counterexample: two FAILED rows stored newest-first by
`failedAt`.  The selection returns them in table order — `failedAt` 10 before
`failedAt` 5 — not oldest-first: the query has no `orderBy`. -/
def rowNewer : StoredNotification :=
  { id := "a", userId := "u1", type := "WELCOME", channel := "EMAIL"
    title := "t1", message := "m1", metadata := [], priority := "NORMAL"
    status := "FAILED", retryCount := 0, scheduledAt := none
    sentAt := none, failedAt := some 10, errorMessage := some "boom"
    createdAt := 1, updatedAt := 1 }

/-- The second stored row: also FAILED, but with the older `failedAt`. -/
def rowOlder : StoredNotification :=
  { id := "b", userId := "u2", type := "WELCOME", channel := "EMAIL"
    title := "t2", message := "m2", metadata := [], priority := "NORMAL"
    status := "FAILED", retryCount := 0, scheduledAt := none
    sentAt := none, failedAt := some 5, errorMessage := some "boom"
    createdAt := 1, updatedAt := 1 }

/-- Oldest-first ordering on `failedAt`, as the claim states it. -/
def orderedOldestFirst (l : List StoredNotification) : Prop :=
  List.Chain' (fun a b => a.failedAt.getD 0 ≤ b.failedAt.getD 0) l

/-- Claim C3, counterexample theorem: on the two-row table the selection is
`[failedAt 10, failedAt 5]`, which is not ordered oldest-first by `failedAt`,
refuting the claimed ordering. -/
theorem C3_counterexample :
    findFailedForRetry [rowNewer, rowOlder] = [rowNewer, rowOlder] ∧
    ¬ orderedOldestFirst (findFailedForRetry [rowNewer, rowOlder]) := by
  constructor
  · decide
  · intro h
    rw [show findFailedForRetry [rowNewer, rowOlder] = [rowNewer, rowOlder] from by decide] at h
    rcases h with - | ⟨hle, -⟩
    revert hle
    decide

/-- Claim C3 (amended): `retryFailed()` selects up to 100 notifications with
`status = FAILED` and `retryCount < 3` in store order — no ordering by
`failedAt` is applied — and, for each selected row, re-enters dispatch with
the row's attributes (channel and priority pinned to the stored values,
`scheduledAt` not forwarded) and sets that row's `retryCount` to its value at
selection time plus 1, leaving every unselected row unchanged. -/
theorem C3_retry_failed (table : List StoredNotification)
    (hnd : (table.map (·.id)).Nodup) :
    (retryFailedNotifications table).1 =
      ((table.filter failedRetryPred).take 100).map retryRequestOf ∧
    (retryFailedNotifications table).2 =
      table.map (bumpIfSelected (findFailedForRetry table)) ∧
    (∀ n ∈ findFailedForRetry table,
      n.status = "FAILED" ∧ n.retryCount < 3 ∧
      bumpIfSelected (findFailedForRetry table) n =
        { n with retryCount := n.retryCount + 1 }) ∧
    (∀ m : StoredNotification, m.id ∉ (findFailedForRetry table).map (·.id) →
      bumpIfSelected (findFailedForRetry table) m = m) ∧
    (findFailedForRetry table).length ≤ 100 := by
  have hselnd : ((findFailedForRetry table).map (·.id)).Nodup :=
    hnd.sublist ((findFailedForRetry_sublist table).map (·.id))
  refine ⟨rfl, ?_, ?_, ?_, List.length_take_le 100 _⟩
  · show (findFailedForRetry table).foldl _ table = _
    rw [foldl_bump_eq_map]
    exact List.map_congr_left fun m _ =>
      foldl_bump_eq_bumpIfSelected _ hselnd m
  · intro n hmem
    have hpred : failedRetryPred n = true :=
      List.of_mem_filter (List.mem_of_mem_take hmem)
    rw [failedRetryPred, Bool.and_eq_true, beq_iff_eq] at hpred
    exact ⟨hpred.1, by simpa using hpred.2, bumpIfSelected_self _ hselnd n hmem⟩
  · intro m hm
    rw [bumpIfSelected]
    have : (findFailedForRetry table).find? (fun n => n.id == m.id) = none := by
      rw [List.find?_eq_none]
      intro n hn
      simp only [beq_eq_false_iff_ne, ne_eq, Bool.not_eq_true]
      intro heq
      exact hm (heq ▸ List.mem_map_of_mem (·.id) hn)
    rw [this]

/-- Claim C3 witness: the amended statement at the concrete two-row table,
through `C3_retry_failed`. -/
theorem C3_retry_failed_witness :
    (retryFailedNotifications [rowNewer, rowOlder]).1 =
      [retryRequestOf rowNewer, retryRequestOf rowOlder] ∧
    (retryFailedNotifications [rowNewer, rowOlder]).2 =
      [bumpIfSelected (findFailedForRetry [rowNewer, rowOlder]) rowNewer,
       bumpIfSelected (findFailedForRetry [rowNewer, rowOlder]) rowOlder] :=
  ⟨(C3_retry_failed [rowNewer, rowOlder] (by decide)).1,
   (C3_retry_failed [rowNewer, rowOlder] (by decide)).2.1⟩

/-! ## Admin bulk endpoint (`notification.controller.ts` lines 54-81) -/

/-- `BulkNotificationsDto`: the validated admin bulk payload. -/
structure BulkNotificationsDto where
  notifications : List SendNotificationData
deriving DecidableEq

/-- Outcome of the bulk endpoint: an `HttpException` with an HTTP status, or
acceptance with the list forwarded to the Kafka producer and the response
message. -/
inductive BulkResponse where
  | rejected (httpStatus : Nat) (error : String)
  | accepted (forwarded : List SendNotificationData) (message : String)
deriving DecidableEq

/-- `sendBulkNotifications` (notification.controller.ts lines 54-81): reject
an absent or empty list with `HttpStatus.BAD_REQUEST` (400), reject more than
10,000 items with 400, otherwise forward the whole list to
`kafkaProducer.sendBulkNotifications` and acknowledge. -/
def sendBulkNotifications (body : BulkNotificationsDto) : BulkResponse :=
  if body.notifications.isEmpty then
    .rejected 400 "No notifications provided"
  else if body.notifications.length > 10000 then
    .rejected 400 "Too many notifications. Maximum 10,000 per request."
  else
    .accepted body.notifications
      (toString body.notifications.length ++ " notifications queued for processing")

/-- Claim C8: the admin bulk endpoint rejects zero-item payloads and payloads
of more than 10,000 items with HTTP 400, and accepts and forwards every
payload of 1 to 10,000 items. -/
theorem C8_bulk_guard (body : BulkNotificationsDto) :
    (body.notifications.length = 0 →
      sendBulkNotifications body = .rejected 400 "No notifications provided") ∧
    (body.notifications.length > 10000 →
      sendBulkNotifications body =
        .rejected 400 "Too many notifications. Maximum 10,000 per request.") ∧
    (1 ≤ body.notifications.length → body.notifications.length ≤ 10000 →
      sendBulkNotifications body = .accepted body.notifications
        (toString body.notifications.length ++ " notifications queued for processing")) := by
  refine ⟨?_, ?_, ?_⟩
  · intro h
    rw [sendBulkNotifications, if_pos]
    rw [List.isEmpty_iff, ← List.length_eq_zero]
    exact h
  · intro h
    have hne : body.notifications.isEmpty = false := by
      rw [Bool.eq_false_iff]
      intro hemp
      rw [List.isEmpty_iff_length_eq_zero] at hemp
      omega
    rw [sendBulkNotifications]
    simp [hne, h]
  · intro h1 h2
    have hne : body.notifications.isEmpty = false := by
      rw [Bool.eq_false_iff]
      intro hemp
      rw [List.isEmpty_iff_length_eq_zero] at hemp
      omega
    rw [sendBulkNotifications]
    simp only [hne, Bool.false_eq_true, if_false]
    rw [if_neg (by omega)]

/-- Claim C8 witness: a one-item payload is accepted and forwarded, through
`C8_bulk_guard`. -/
theorem C8_bulk_guard_witness :
    sendBulkNotifications ⟨[u2Request]⟩ =
      .accepted [u2Request] "1 notifications queued for processing" :=
  (C8_bulk_guard ⟨[u2Request]⟩).2.2 (by decide) (by decide)

/-! ## Channel workers (`workers/email.worker.ts`, `workers/push.worker.ts`)

Both workers fetch a template through
`ChannelService.getNotificationTemplate(type, channel)`, which consults the
renderer cache under the key `type + ':' + channel` and, on a cold cache,
runs `prisma.notificationTemplate.findFirst({ where: { type, channel,
isActive: true } })`; a warm cache returns the previously fetched row for the
same key, so the consulted `(type, channel)` pair is unchanged — the
embedding reads through to the store. -/

/-- A `notification_templates` row. -/
structure StoredTemplate where
  type : String
  channel : String
  isActive : Bool
  title : String
  message : String
  htmlContent : Option String
deriving DecidableEq, Repr

/-- `ChannelService.getNotificationTemplate` (channel.service.ts lines
153-175) on the store: first active row matching the given type and channel,
`null` when none matches. -/
def getNotificationTemplate (templates : List StoredTemplate)
    (type channel : String) : Option StoredTemplate :=
  templates.find? fun t => t.type == type && t.channel == channel && t.isActive

/-- The content fields of a stored template as handed to the renderer. -/
def contentOf (t : StoredTemplate) : TemplateContent :=
  ⟨t.title, t.message, t.htmlContent⟩

/-- The variables object `{ title, message, ...metadata }` both workers pass
to `renderTemplate`, in `Object.entries` order.  (The metadata keys are taken
distinct from `title` and `message`; a clash would instead overwrite those
properties in place under the JavaScript spread.) -/
def jobVariables (job : JobData) : List (String × String) :=
  ("title", job.title) :: ("message", job.message) :: job.metadata

/-- The template the email worker consults (email.worker.ts lines 50-53):
`getNotificationTemplate('EMAIL', 'EMAIL')` — both arguments are the channel
literal; the owning notification's type is not in the job data at all. -/
def emailWorkerTemplate (templates : List StoredTemplate) : Option StoredTemplate :=
  getNotificationTemplate templates "EMAIL" "EMAIL"

/-- The `(subject, body)` the email worker sends (email.worker.ts lines
54-73): rendered title, and `rendered.htmlContent || rendered.message` when a
template was found; the raw job title and message otherwise. -/
def emailFinalContent (templates : List StoredTemplate) (job : JobData) :
    String × String :=
  match emailWorkerTemplate templates with
  | some tpl =>
    let r := render (contentOf tpl) (jobVariables job)
    (r.title, if jsStrTruthy r.htmlContent then r.htmlContent.getD r.message else r.message)
  | none => (job.title, job.message)

/-- The template the push worker consults (push.worker.ts line 39):
`getNotificationTemplate('PUSH', 'PUSH')`. -/
def pushWorkerTemplate (templates : List StoredTemplate) : Option StoredTemplate :=
  getNotificationTemplate templates "PUSH" "PUSH"

/-- The `(title, body)` the push worker sends (push.worker.ts lines 40-63):
rendered title and message when a template was found, raw otherwise. -/
def pushFinalContent (templates : List StoredTemplate) (job : JobData) :
    String × String :=
  match pushWorkerTemplate templates with
  | some tpl =>
    let r := render (contentOf tpl) (jobVariables job)
    (r.title, r.message)
  | none => (job.title, job.message)

/-- The active template for `(WELCOME, EMAIL)` of the failing input. -/
def welcomeTemplate : StoredTemplate :=
  { type := "WELCOME", channel := "EMAIL", isActive := true
    title := "Hello {{title}}", message := "Body {{message}}"
    htmlContent := some "<b>{{message}}</b>" }

/-- A job owned by a notification of type `WELCOME` on channel `EMAIL`. -/
def welcomeJob : JobData :=
  { notificationId := "n1", userId := "u1", title := "Welcome!"
    message := "Hi", metadata := [] }

/-- Claim C2, failing input evaluated: the store holds exactly the active
template for the owning notification's pair `(WELCOME, EMAIL)`, yet the email
worker's lookup — `getNotificationTemplate('EMAIL', 'EMAIL')`, the channel
literal passed as the type — finds nothing, so the raw job title and message
are sent; the claimed behaviour is to render that template (which would give
subject `"Hello Welcome!"` and htmlContent body `"<b>Hi</b>"`).  The push
worker's lookup is wrong the same way. -/
theorem C2_template_lookup_wrong_type :
    emailWorkerTemplate [welcomeTemplate] = none ∧
    getNotificationTemplate [welcomeTemplate] "WELCOME" "EMAIL" = some welcomeTemplate ∧
    emailFinalContent [welcomeTemplate] welcomeJob = ("Welcome!", "Hi") ∧
    (render (contentOf welcomeTemplate) (jobVariables welcomeJob)).title = "Hello Welcome!" ∧
    (render (contentOf welcomeTemplate) (jobVariables welcomeJob)).htmlContent = some "<b>Hi</b>" ∧
    pushWorkerTemplate [welcomeTemplate] = none := by
  refine ⟨by decide, by decide, by decide, ?_, ?_, by decide⟩ <;> decide

end NotificationSvc
